import Mathlib

/-
  Shallow embedding of the transaction-extraction engine of the
  pdf-reader repository (src/dbs-to-excel.ts and the Citibank converter
  embedded in src/README.md).  Strings are modelled as Lean strings,
  JavaScript floating-point money values as integer cents (every amount
  handled by the code is produced by a regex with exactly two fraction
  digits, or by toFixed(2)), and the regexes used by the code are
  translated into dedicated matching functions with JavaScript
  left-to-right, greedy/lazy semantics.
-/

set_option maxRecDepth 20000

/-! ## Generic string utilities (JavaScript semantics) -/

/-- JavaScript whitespace class relevant to the inputs (space, tab,
newline, carriage return, vertical tab, form feed). -/
def isWsJs (c : Char) : Bool :=
  c = ' ' || c = '\t' || c = '\n' || c = '\r' || c.toNat = 11 || c.toNat = 12

def lstartsWith : List Char → List Char → Bool
  | _, [] => true
  | [], _ :: _ => false
  | c :: cs, p :: ps => c = p && lstartsWith cs ps

def lcontainsSub : List Char → List Char → Bool
  | [], p => p.isEmpty
  | c :: t, p => lstartsWith (c :: t) p || lcontainsSub t p

/-- JavaScript `s.includes(pat)`. -/
def strContains (s pat : String) : Bool :=
  lcontainsSub s.toList pat.toList

/-- JavaScript `s.toUpperCase()` (ASCII; the inputs are ASCII). -/
def toUpperStr (s : String) : String :=
  String.mk (s.toList.map Char.toUpper)

def cget (cs : List Char) (i : Nat) : Option Char :=
  (cs.drop i).head?

def isDigitAt (cs : List Char) (i : Nat) : Bool :=
  match cget cs i with
  | some c => c.isDigit
  | none => false

def charAtIs (cs : List Char) (i : Nat) (c : Char) : Bool :=
  match cget cs i with
  | some d => d = c
  | none => false

def isUpperAt (cs : List Char) (i : Nat) : Bool :=
  match cget cs i with
  | some c => c.isUpper
  | none => false

def isAlphaAt (cs : List Char) (i : Nat) : Bool :=
  match cget cs i with
  | some c => c.isAlpha
  | none => false

/-- First index at or after `i` whose character fails `p`
(the end of the maximal `p`-run starting at `i`). -/
def runEnd (p : Char → Bool) (cs : List Char) (i : Nat) : Nat :=
  i + ((cs.drop i).takeWhile p).length

def sliceStr (cs : List Char) (i j : Nat) : String :=
  String.mk ((cs.drop i).take (j - i))

/-- Left-to-right non-overlapping scan, as performed by a JavaScript
global regex: at each position try `f`; on a match record it and resume
at its end. -/
def scanAllAux (f : Nat → Option Nat) (n : Nat) : Nat → Nat → List (Nat × Nat)
  | 0, _ => []
  | fuel + 1, i =>
    if n ≤ i then []
    else
      match f i with
      | some e => (i, e) :: scanAllAux f n fuel (max e (i + 1))
      | none => scanAllAux f n fuel (i + 1)

def scanAll (f : Nat → Option Nat) (n : Nat) : List (Nat × Nat) :=
  scanAllAux f n (n + 1) 0

/-- Remove the listed (start, end) ranges from a character list
(used for global regex replacement by the empty string). -/
def removeRanges (cs : List Char) (ms : List (Nat × Nat)) : List Char :=
  match ms with
  | [] => cs.drop 0 |>.take cs.length
  | (i, e) :: rest =>
    (cs.take i) ++ removeRangesFrom cs e rest
where
  removeRangesFrom (cs : List Char) (cur : Nat) : List (Nat × Nat) → List Char
    | [] => cs.drop cur
    | (i, e) :: rest => ((cs.drop cur).take (i - cur)) ++ removeRangesFrom cs e rest

/-- The pieces of `cs` between the ranges `ms` (including the possibly
empty first and last pieces), as produced by JavaScript `split(regex)`. -/
def piecesBetween (cs : List Char) (cur : Nat) : List (Nat × Nat) → List String
  | [] => [sliceStr cs cur cs.length]
  | (i, e) :: rest => sliceStr cs cur i :: piecesBetween cs e rest

def dedupSpaces : List Char → List Char
  | [] => []
  | [c] => [c]
  | a :: b :: rest =>
    if a = ' ' && b = ' ' then dedupSpaces (b :: rest)
    else a :: dedupSpaces (b :: rest)

/-- JavaScript `s.replace(/\s+/g, " ")`. -/
def collapseWs (s : String) : String :=
  String.mk (dedupSpaces (s.toList.map (fun c => if isWsJs c then ' ' else c)))

/-- JavaScript `s.trim()`. -/
def trimJs (s : String) : String :=
  String.mk ((((s.toList.dropWhile isWsJs).reverse).dropWhile isWsJs).reverse)

/-- JavaScript `line.match(/^\s*$/) !== null`: the string is entirely
whitespace. -/
def isBlankJs (s : String) : Bool :=
  s.toList.all isWsJs

/-- JavaScript `s.split(/\s+/)` (which keeps an empty first or last
piece when the string starts or ends with whitespace). -/
def jsSplitWs (s : String) : List String :=
  let cs := s.toList
  let ms := scanAll
    (fun i => if (match cget cs i with | some c => isWsJs c | none => false)
              then some (runEnd isWsJs cs i) else none)
    cs.length
  piecesBetween cs 0 ms

/-- Replace the first occurrence of the literal `pat` in `s` by `rep`
(JavaScript `s.replace(pat, rep)` with a string pattern). -/
def jsReplaceFirst (s pat rep : String) : String :=
  let cs := s.toList
  let ps := pat.toList
  match (scanAll (fun i =>
      if lstartsWith (cs.drop i) ps then some (i + ps.length) else none)
      (cs.length + 1)).head? with
  | some (i, e) => String.mk (cs.take i ++ rep.toList ++ cs.drop e)
  | none => s

/-- JavaScript `s.split(sep)` for a non-empty literal separator. -/
def jsSplitLit (s sep : String) : List String :=
  let cs := s.toList
  let ps := sep.toList
  piecesBetween cs 0 (scanAll (fun i =>
    if lstartsWith (cs.drop i) ps then some (i + ps.length) else none)
    cs.length)

/-- JavaScript `parts.join(sep)`. -/
def joinWith (sep : String) : List String → String
  | [] => ""
  | h :: t => t.foldl (fun a x => a ++ sep ++ x) h

def digitsToNat (ds : List Char) : Nat :=
  ds.foldl (fun a c => a * 10 + (c.toNat - 48)) 0

/-- JavaScript `parseInt` on a digit string. -/
def parseNatJs (s : String) : Nat :=
  digitsToNat (s.toList.takeWhile Char.isDigit)

/-- JavaScript `parseFloat(s.replace(/,/g, ""))` in integer cents.
Every string the converters feed to parseFloat is either empty (NaN,
modelled as `none`) or a canonical amount with exactly two fraction
digits (or a plain integer), so this exact-cents parser agrees with the
source on all reachable inputs. -/
def parseMoney (s : String) : Option Int :=
  let cs := s.toList.filter (fun c => c ≠ ',')
  let ds := cs.takeWhile Char.isDigit
  if ds.isEmpty then none
  else
    match cs.drop ds.length with
    | [] => some (Int.ofNat (digitsToNat ds * 100))
    | '.' :: fs =>
      match fs.takeWhile Char.isDigit with
      | [a, b] => some (Int.ofNat (digitsToNat ds * 100 + digitsToNat [a, b]))
      | _ => none
    | _ => none

def pad2 (k : Nat) : String :=
  if k < 10 then "0" ++ toString k else toString k

/-- JavaScript `x.toFixed(2)` for a non-negative amount given in cents. -/
def centsToFixed (n : Int) : String :=
  toString (n.toNat / 100) ++ "." ++ pad2 (n.toNat % 100)

/-! ## DBS tokenizer and line classification (src/dbs-to-excel.ts) -/

/-- One attempt of the DBS amount regex `/\d+,?\d*\.\d{2}/` at index `i`
(returns the index just past the match). -/
def dbsAmountAt (cs : List Char) (i : Nat) : Option Nat :=
  let j := runEnd Char.isDigit cs i
  if j = i then none
  else
    match cget cs j with
    | some '.' =>
      if isDigitAt cs (j + 1) && isDigitAt cs (j + 2) then some (j + 3) else none
    | some ',' =>
      let k := runEnd Char.isDigit cs (j + 1)
      match cget cs k with
      | some '.' =>
        if isDigitAt cs (k + 1) && isDigitAt cs (k + 2) then some (k + 3) else none
      | _ => none
    | _ => none

/-- `[...line.matchAll(/\d+,?\d*\.\d{2}/g)].map(m => m[0])`. -/
def amountTokensDbs (line : String) : List String :=
  let cs := line.toList
  (scanAll (dbsAmountAt cs) cs.length).map (fun m => sliceStr cs m.1 m.2)

/-- The DBS date regex `/\d{2}\/\d{2}\/\d{4}/` matches at index `i`. -/
def dbsDateAt (cs : List Char) (i : Nat) : Bool :=
  isDigitAt cs i && isDigitAt cs (i + 1) && charAtIs cs (i + 2) '/' &&
  isDigitAt cs (i + 3) && isDigitAt cs (i + 4) && charAtIs cs (i + 5) '/' &&
  isDigitAt cs (i + 6) && isDigitAt cs (i + 7) && isDigitAt cs (i + 8) &&
  isDigitAt cs (i + 9)

/-- First DBS date in a line, together with the text after it
(`line.substring(line.indexOf(date) + date.length)`). -/
def dbsDateSplit (line : String) : Option (String × String) :=
  let cs := line.toList
  match (scanAll (fun i => if dbsDateAt cs i then some (i + 10) else none)
      cs.length).head? with
  | some (i, e) => some (sliceStr cs i e, sliceStr cs e cs.length)
  | none => none

/-- Capture of `/SGD\s+([\d,]+\.\d{2})/` (Balance Brought Forward). -/
def sgdCapture (line : String) : Option String :=
  let cs := line.toList
  (scanAll (fun i =>
    if lstartsWith (cs.drop i) "SGD".toList then
      let j := runEnd isWsJs cs (i + 3)
      if j = i + 3 then none
      else
        let k := runEnd (fun c => c.isDigit || c = ',') cs j
        if k = j then none
        else if charAtIs cs k '.' && isDigitAt cs (k + 1) && isDigitAt cs (k + 2)
        then some (k + 3) else none
    else none) cs.length).head?.map (fun m =>
      let cs2 := cs
      -- the capture group starts after "SGD" and the whitespace run
      sliceStr cs2 (runEnd isWsJs cs2 (m.1 + 3)) m.2)

/-- Capture of `/Account No\.\s+(\d+-\d+-\d+)/`. -/
def accountCapture (line : String) : Option String :=
  let cs := line.toList
  (scanAll (fun i =>
    if lstartsWith (cs.drop i) "Account No.".toList then
      let j := runEnd isWsJs cs (i + 11)
      if j = i + 11 then none
      else
        let d1 := runEnd Char.isDigit cs j
        if d1 = j then none
        else if charAtIs cs d1 '-' then
          let d2 := runEnd Char.isDigit cs (d1 + 1)
          if d2 = d1 + 1 then none
          else if charAtIs cs d2 '-' then
            let d3 := runEnd Char.isDigit cs (d2 + 1)
            if d3 = d2 + 1 then none else some d3
          else none
        else none
    else none) cs.length).head?.map (fun m =>
      sliceStr cs (runEnd isWsJs cs (m.1 + 11)) m.2)

/-- Start-of-transaction-section test (dbs-to-excel.ts lines 213-220). -/
def sectionStartDbs (line : String) : Bool :=
  strContains line "Transaction Details" ||
  (strContains line "Date" && strContains line "Description" &&
   strContains line "Withdrawal" && strContains line "Deposit" &&
   strContains line "Balance")

/-- Recipient-bearing seed markers (dbs-to-excel.ts lines 332-338). -/
def collectMarker (s : String) : Bool :=
  strContains s "Advice" || strContains s "FAST" || strContains s "TRANSFER" ||
  strContains s "Debit Card" || strContains s "GIRO" || strContains s "Salary"

/-! ## DBS amount assignment (processAmounts, lines 397-564) -/

/-- Per-line withdrawal indicator (lines 410-419). -/
def wIndicator (line : String) : Bool :=
  strContains line "TO:" ||
  (strContains line "TRANSFER" && !strContains line "FROM:" &&
   !strContains line "INCOMING") ||
  (strContains line "PAYMENT" && !strContains line "INCOMING") ||
  strContains line "Debit Card" || strContains line "PURCHASE" ||
  strContains line "ATM" || strContains line "WITHDRAWAL"

/-- Per-line deposit indicator (lines 422-429). -/
def dIndicator (line : String) : Bool :=
  strContains line "FROM:" || strContains line "INCOMING" ||
  strContains line "RECEIPT" || strContains line "SALARY" ||
  strContains line "INTEREST" || strContains line "CREDIT" ||
  strContains line "REFUND"

/-- Withdrawal score on the uppercased full description (lines 439-443). -/
def withdrawalScore (fullDesc : String) : Nat :=
  (if strContains fullDesc "TO:" then 1 else 0) +
  (if strContains fullDesc "TRANSFER" && !strContains fullDesc "FROM:" then 1 else 0) +
  (if strContains fullDesc "PAYMENT" && !strContains fullDesc "INCOMING" then 1 else 0) +
  (if strContains fullDesc "DEBIT" then 1 else 0)

/-- Deposit score on the uppercased full description (lines 445-450). -/
def depositScore (fullDesc : String) : Nat :=
  (if strContains fullDesc "FROM:" then 1 else 0) +
  (if strContains fullDesc "INCOMING" then 1 else 0) +
  (if strContains fullDesc "RECEIPT" then 1 else 0) +
  (if strContains fullDesc "SALARY" then 1 else 0) +
  (if strContains fullDesc "CREDIT" then 1 else 0)

/-- The (isWithdrawal, isDeposit) pair after the conflict-rescoring
block of processAmounts (lines 433-462). -/
def finalIndicators (line desc : String) : Bool × Bool :=
  let w := wIndicator line
  let d := dIndicator line
  if w && d then
    let fullDesc := toUpperStr desc
    let ws := withdrawalScore fullDesc
    let ds := depositScore fullDesc
    if ds < ws then (true, false)
    else if ws < ds then (false, true)
    else (w, d)
  else (w, d)

structure DbsTxn where
  Account : String
  Date : String
  Description : String
  Withdrawal : String
  Deposit : String
  Balance : String
  RecipientInfo : String
  Category : String
deriving Repr, DecidableEq

/-- Withdrawal keywords consulted in the two-amount fallback
(lines 512-516). -/
def descWithdrawSignal (desc : String) : Bool :=
  strContains desc "TO:" || strContains desc "PAYMENT" ||
  strContains desc "Debit Card"

/-- Final mutual-exclusion check of processAmounts (lines 555-563). -/
def finalClear (t : DbsTxn) (isW isD : Bool) : DbsTxn :=
  if t.Withdrawal ≠ "" ∧ t.Deposit ≠ "" then
    if isW && !isD then { t with Deposit := "" }
    else if isD && !isW then { t with Withdrawal := "" }
    else t
  else t

/-- processAmounts (dbs-to-excel.ts lines 397-564).  `lastBalance` is in
cents. -/
def processAmounts (t : DbsTxn) (line : String) (amounts : List String)
    (lastBalance : Int) : DbsTxn :=
  let wd := finalIndicators line t.Description
  let isW := wd.1
  let isD := wd.2
  let t1 :=
    match amounts with
    | [] => t
    | [a] =>
      if (dbsDateSplit line).isSome then { t with Balance := a }
      else if isW then { t with Withdrawal := a }
      else if isD then { t with Deposit := a }
      else { t with Balance := a }
    | [a, b] =>
      if isW then { t with Withdrawal := a, Balance := b }
      else if isD then { t with Deposit := a, Balance := b }
      else
        -- balance-delta tie-break: NaN comparisons are false
        let ltLast : Bool :=
          match parseMoney b with
          | some bv => decide (0 < lastBalance) && decide (bv < lastBalance)
          | none => false
        let gtLast : Bool :=
          match parseMoney b with
          | some bv => decide (0 < lastBalance) && decide (lastBalance < bv)
          | none => false
        if ltLast then { t with Withdrawal := a, Balance := b }
        else if gtLast then { t with Deposit := a, Balance := b }
        else
          if descWithdrawSignal t.Description then
            { t with Balance := b, Withdrawal := a }
          else
            { t with Balance := b, Deposit := a }
    | a :: _ :: _ :: _ =>
      let lastAmt := amounts.getLastD ""
      if t.Withdrawal = "" ∧ t.Deposit = "" then
        if isW then { t with Withdrawal := a, Balance := lastAmt }
        else if isD then { t with Deposit := a, Balance := lastAmt }
        else
          let positive : Bool :=
            match parseMoney a with
            | some v => decide (0 < v)
            | none => false
          if positive then
            if strContains line "(-)" then
              { t with Withdrawal := a, Balance := lastAmt }
            else
              { t with Deposit := a, Balance := lastAmt }
          else { t with Balance := lastAmt }
      else { t with Balance := lastAmt }
  finalClear t1 isW isD

/-! ## DBS balance reconciliation (verifyTransactionAmounts, lines 567-620) -/

/-- verifyTransactionAmounts.  Note the source guards each overwrite
with `Math.abs(parseFloat(recorded) - parseFloat(expected)) > 0.01`;
when the recorded side is the empty string, parseFloat yields NaN and
the guard is false, so no overwrite happens. -/
def verifyTransactionAmounts (t : DbsTxn) (lastBalance : Int) : DbsTxn :=
  if t.Balance ≠ "" ∧ 0 < lastBalance then
    match parseMoney t.Balance with
    | none => t
    | some cur =>
      if cur - lastBalance < 0 then
        -- expected withdrawal is abs(cur - lastBalance) = lastBalance - cur
        if t.Withdrawal = "" ∨ parseMoney t.Withdrawal ≠ some (lastBalance - cur)
        then
          match parseMoney t.Withdrawal with
          | none => t
          | some w =>
            if 1 < (w - (lastBalance - cur)).natAbs then
              { t with Deposit := "",
                       Withdrawal := centsToFixed (lastBalance - cur) }
            else t
        else t
      else if 0 < cur - lastBalance then
        if t.Deposit = "" ∨ parseMoney t.Deposit ≠ some (cur - lastBalance) then
          match parseMoney t.Deposit with
          | none => t
          | some d =>
            if 1 < (d - (cur - lastBalance)).natAbs then
              { t with Withdrawal := "",
                       Deposit := centsToFixed (cur - lastBalance) }
            else t
        else t
      else t
  else t

/-! ## DBS description cleanup and categorization
(cleanupDescription, dbs-to-excel.ts lines 623-1029) -/

/-- Remove all matches of the amount regex (global replace by ""). -/
def removeAmounts (s : String) : String :=
  let cs := s.toList
  String.mk (removeRanges cs (scanAll (dbsAmountAt cs) cs.length))

/-- Global replace of `/\(\-\)|\(\+\)/` by "". -/
def removeSigns (s : String) : String :=
  let cs := s.toList
  String.mk (removeRanges cs (scanAll (fun i =>
    if lstartsWith (cs.drop i) "(-)".toList ||
       lstartsWith (cs.drop i) "(+)".toList
    then some (i + 3) else none) cs.length))

/-- The Advice rewriting step (lines 635-642). -/
def adviceStep (d : String) : String :=
  if strContains d "Advice" then
    let parts := jsSplitWs d
    if 2 < parts.length then joinWith " " (parts.drop 2) else d
  else d

/-- The description normalization pass of cleanupDescription
(lines 627-645): strip amount tokens, strip sign markers, Advice
rewriting, collapse whitespace and trim. -/
def descNormalize (d : String) : String :=
  trimJs (collapseWs (adviceStep (removeSigns (removeAmounts d))))

/-- All start positions in a character list. -/
def allPositions (cs : List Char) : List Nat :=
  List.range cs.length

/-- JavaScript `.`: any character except a line terminator. -/
def isDotChar (c : Char) : Bool :=
  c ≠ '\n' && c ≠ '\r' && c.toNat ≠ 0x2028 && c.toNat ≠ 0x2029

/-- Capture of `/Debit Card Transaction\s+(.+?)(?:\s+\d{2}[A-Z]{3}|\s+\d{4}-\d{4}|$)/`
(line 659-661): after the literal and the greedy whitespace run, the
lazy group grows until one of the three tail alternatives matches. -/
def debitCardMerchantCapture (ri : String) : Option String :=
  let cs := ri.toList
  let n := cs.length
  let tailDate : Nat → Bool := fun q =>
    let r := runEnd isWsJs cs q
    decide (q < r) && isDigitAt cs r && isDigitAt cs (r + 1) &&
    isUpperAt cs (r + 2) && isUpperAt cs (r + 3) && isUpperAt cs (r + 4)
  let tailCard : Nat → Bool := fun q =>
    let r := runEnd isWsJs cs q
    decide (q < r) && isDigitAt cs r && isDigitAt cs (r + 1) &&
    isDigitAt cs (r + 2) && isDigitAt cs (r + 3) && charAtIs cs (r + 4) '-' &&
    isDigitAt cs (r + 5) && isDigitAt cs (r + 6) && isDigitAt cs (r + 7) &&
    isDigitAt cs (r + 8)
  (allPositions cs).findSome? fun i =>
    if lstartsWith (cs.drop i) "Debit Card Transaction".toList then
      let p := i + 22
      let wsEnd := runEnd isWsJs cs p
      -- greedy \s+ : try the longest whitespace consumption first
      ((List.range' (p + 1) (wsEnd - p)).reverse).findSome? fun j =>
        let dotEnd := runEnd isDotChar cs j
        -- lazy (.+?) : smallest k first
        (List.range' 1 (dotEnd - j)).findSome? fun k =>
          let q := j + k
          if tailDate q || tailCard q || decide (q = n) then
            some (sliceStr cs j q)
          else none
    else none

/-- JavaScript `merchantInfo.split(/\s+(?=[A-Z]{3}$)/)` when it yields
two parts: the text before the final whitespace run and a trailing
three-capital-letter location. -/
def merchantSplit (s : String) : Option (String × String) :=
  let cs := s.toList
  let n := cs.length
  if 4 ≤ n ∧ isUpperAt cs (n - 3) ∧ isUpperAt cs (n - 2) ∧ isUpperAt cs (n - 1)
  then
    let wsLen := ((cs.take (n - 3)).reverse.takeWhile isWsJs).length
    if wsLen = 0 then none
    else some (sliceStr cs 0 (n - 3 - wsLen), sliceStr cs (n - 3) n)
  else none

/-- First match of `/(\d{4}-\d{4}-\d{4}-\d{4})/` (line 749). -/
def cardNumberCapture (s : String) : Option String :=
  let cs := s.toList
  let d4 : Nat → Bool := fun i =>
    isDigitAt cs i && isDigitAt cs (i + 1) && isDigitAt cs (i + 2) &&
    isDigitAt cs (i + 3)
  (allPositions cs).findSome? fun i =>
    if d4 i && charAtIs cs (i + 4) '-' && d4 (i + 5) && charAtIs cs (i + 9) '-' &&
       d4 (i + 10) && charAtIs cs (i + 14) '-' && d4 (i + 15) then
      some (sliceStr cs i (i + 19))
    else none

/-- Capture of `/\s+(\d{2}[A-Z]{3})\s*$/` (line 755). -/
def txnDateCapture (s : String) : Option String :=
  let cs := s.toList
  (allPositions cs).findSome? fun i =>
    if (match cget cs i with | some c => isWsJs c | none => false) then
      let j := runEnd isWsJs cs i
      if isDigitAt cs j && isDigitAt cs (j + 1) && isUpperAt cs (j + 2) &&
         isUpperAt cs (j + 3) && isUpperAt cs (j + 4) &&
         decide (runEnd isWsJs cs (j + 5) = cs.length) then
        some (sliceStr cs j (j + 5))
      else none
    else none

/-- Capture of `/KEYWORD\s+([^\n]+)/` for a literal keyword such as
"TO:" or "FROM:"; the greedy whitespace run backtracks one character at
a time when no non-newline character follows it. -/
def keywordLineCapture (keyword s : String) : Option String :=
  let cs := s.toList
  let ks := keyword.toList
  (allPositions cs).findSome? fun i =>
    if lstartsWith (cs.drop i) ks then
      let p := i + ks.length
      let wsEnd := runEnd isWsJs cs p
      ((List.range' (p + 1) (wsEnd - p)).reverse).findSome? fun j =>
        match cget cs j with
        | some c =>
          if c ≠ '\n' then some (sliceStr cs j (runEnd (fun d => d ≠ '\n') cs j))
          else none
        | none => none
    else none

/-- Capture of `/REF\s+([^\s]+)/` (lines 824, 974). -/
def refCapture (s : String) : Option String :=
  let cs := s.toList
  (allPositions cs).findSome? fun i =>
    if lstartsWith (cs.drop i) "REF".toList then
      let p := i + 3
      let wsEnd := runEnd isWsJs cs p
      if p < wsEnd then
        let e := runEnd (fun c => !isWsJs c) cs wsEnd
        if wsEnd < e then some (sliceStr cs wsEnd e) else none
      else none
    else none

/-- Capture of `/TRANSFER\s+(\d+)/` (lines 766, 980). -/
def transferCapture (s : String) : Option String :=
  let cs := s.toList
  (allPositions cs).findSome? fun i =>
    if lstartsWith (cs.drop i) "TRANSFER".toList then
      let p := i + 8
      let wsEnd := runEnd isWsJs cs p
      if p < wsEnd then
        let e := runEnd Char.isDigit cs wsEnd
        if wsEnd < e then some (sliceStr cs wsEnd e) else none
      else none
    else none

/-- Merchant-keyword categorization shared by both Debit Card branches
(lines 670-705 and 709-744). -/
def merchantCategory (upperName : String) (dflt : String) : String :=
  if strContains upperName "RESTAURANT" || strContains upperName "CAFE" ||
     strContains upperName "FOOD" || strContains upperName "BAKERY" ||
     strContains upperName "COFFEE" then "Dining"
  else if strContains upperName "MARKET" || strContains upperName "SUPERMARKET" ||
     strContains upperName "GROCERY" || strContains upperName "NTUC" ||
     strContains upperName "FAIRPRICE" || strContains upperName "COLD STORAGE"
  then "Groceries"
  else if strContains upperName "TRANSPORT" || strContains upperName "GRAB" ||
     strContains upperName "TAXI" || strContains upperName "MRT" ||
     strContains upperName "BUS" || strContains upperName "GOJEK"
  then "Transport"
  else if strContains upperName "AMAZON" || strContains upperName "LAZADA" ||
     strContains upperName "SHOPEE" || strContains upperName "QOOLMART"
  then "Shopping"
  else dflt

/-- Recipient categorization of PAYNOW/FAST TO: names (lines 781-797). -/
def paynowToCategory (recipient : String) : String :=
  if strContains recipient "RENT" || strContains recipient "PROPERTY" ||
     strContains recipient "CONDO" || strContains recipient "APARTMENT"
  then "Housing"
  else if strContains recipient "INSURANCE" then "Insurance"
  else if strContains recipient "INVESTMENT" || strContains recipient "SECURITIES" ||
     strContains recipient "TRADING" then "Investment"
  else "Transfer"

/-- Sender categorization of PAYNOW/FAST FROM: names (lines 801-819). -/
def paynowFromCategory (sender : String) : String :=
  if strContains sender "SALARY" || strContains sender "PAYROLL" ||
     strContains sender "WAGE" || strContains sender "COMPENSATION"
  then "Salary"
  else if strContains sender "DIVIDEND" || strContains sender "INTEREST" ||
     strContains sender "INVESTMENT" then "Investment Income"
  else "Income"

/-- TO: categorization of the generic branch (lines 848-865). -/
def otherToCategory (recipient : String) : String :=
  if strContains recipient "BILL" || strContains recipient "UTILITY" ||
     strContains recipient "POWER" || strContains recipient "WATER" ||
     strContains recipient "GAS" || strContains recipient "ELECTRICITY"
  then "Bills"
  else "Transfer"

/-- Company-name categorization in the GIRO/Salary block (lines 924-943). -/
def companyCategory (company : String) (cur : String) : String :=
  if strContains company "INSURANCE" then "Insurance"
  else if strContains company "TELECOM" || strContains company "MOBILE" ||
     strContains company "PHONE" || strContains company "SINGTEL" ||
     strContains company "STARHUB" || strContains company "M1"
  then "Telecommunications"
  else if strContains company "POWER" || strContains company "UTILITY" ||
     strContains company "SP GROUP" || strContains company "WATER"
  then "Utilities"
  else cur

/-- Payment-details categorization in the GIRO/Salary block
(lines 952-966). -/
def detailsCategory (details : String) (cur : String) : String :=
  if strContains details "SALARY" || strContains details "PAYROLL" then "Salary"
  else if strContains details "INSURANCE" || strContains details "PREMIUM"
  then "Insurance"
  else if strContains details "LOAN" || strContains details "MORTGAGE"
  then "Loan Payment"
  else cur

/-- The GIRO/Salary sub-block of cleanupDescription (lines 873-970).
Takes the recipient info, the current description and category and the
transaction (for the Deposit test), and returns the updated
description and category. -/
def giroBlock (ri desc cat : String) (depositSet : Bool) : String × String :=
  let filteredLines := ((jsSplitLit ri "\n").map trimJs).filter (fun l => l ≠ "")
  let mainDesc := trimJs (filteredLines.headD "")
  let descCat1 :=
    if strContains mainDesc "GIRO" || strContains mainDesc "Salary" then
      let transactionType := if strContains mainDesc "GIRO" then "GIRO" else "Salary"
      let c :=
        if strContains mainDesc "Salary" then "Salary"
        else if strContains mainDesc "GIRO" then
          if depositSet then "Income" else "Bills"
        else cat
      (transactionType, c)
    else (desc, cat)
  if 2 ≤ filteredLines.length then
    let companyName := trimJs ((filteredLines.drop 1).headD "")
    let descCat2 :=
      if companyName ≠ "" then
        (descCat1.1 ++ " | FROM: " ++ companyName,
         companyCategory (toUpperStr companyName) descCat1.2)
      else descCat1
    if 3 ≤ filteredLines.length then
      let paymentDetails := trimJs ((filteredLines.drop 2).headD "")
      if paymentDetails ≠ "" then
        (descCat2.1 ++ " | DETAILS: " ++ paymentDetails,
         detailsCategory (toUpperStr paymentDetails) descCat2.2)
      else descCat2
    else descCat2
  else descCat1

/-- The RecipientInfo block of cleanupDescription (lines 648-998),
returning the updated description and the category it determines. -/
def recipientBlock (ri desc : String) (depositSet : Bool) : String × String :=
  if strContains ri "Debit Card Transaction" then
    let base :=
      match debitCardMerchantCapture ri with
      | some raw =>
        let merchantInfo := trimJs raw
        match merchantSplit merchantInfo with
        | some (m0, m1) =>
          (desc ++ " | MERCHANT: " ++ trimJs m0 ++ " | LOCATION: " ++ trimJs m1,
           merchantCategory (toUpperStr (trimJs m0)) "Debit Card")
        | none =>
          (desc ++ " | MERCHANT: " ++ merchantInfo,
           merchantCategory (toUpperStr merchantInfo) "Debit Card")
      | none => (desc, "Debit Card")
    let d6 :=
      match cardNumberCapture ri with
      | some c => base.1 ++ " | CARD: " ++ c
      | none => base.1
    let d7 :=
      match txnDateCapture ri with
      | some dd => d6 ++ " | TRANSACTION DATE: " ++ dd
      | none => d6
    (d7, base.2)
  else if strContains ri "PAYNOW" || strContains ri "FAST" then
    let transferInfo :=
      match transferCapture ri with
      | some n => "TRANSFER: " ++ trimJs n
      | none => ""
    let nameCat :=
      match keywordLineCapture "TO:" ri with
      | some cap => ("TO: " ++ trimJs cap, paynowToCategory (toUpperStr (trimJs cap)))
      | none =>
        match keywordLineCapture "FROM:" ri with
        | some cap =>
          ("FROM: " ++ trimJs cap, paynowFromCategory (toUpperStr (trimJs cap)))
        | none => ("", "Transfer")
    let refInfo :=
      match refCapture ri with
      | some r => "REF: " ++ trimJs r
      | none => ""
    let d5 := if nameCat.1 ≠ "" then desc ++ " | " ++ nameCat.1 else desc
    let d6 := if transferInfo ≠ "" then d5 ++ " | " ++ transferInfo else d5
    let d7 := if refInfo ≠ "" then d6 ++ " | " ++ refInfo else d6
    (d7, nameCat.2)
  else
    let toFromCat :=
      match keywordLineCapture "TO:" ri with
      | some cap => ("TO: " ++ trimJs cap, otherToCategory (toUpperStr (trimJs cap)))
      | none =>
        match keywordLineCapture "FROM:" ri with
        | some cap => ("FROM: " ++ trimJs cap, "Income")
        | none => ("", "")
    let descCatG :=
      if strContains ri "GIRO" || strContains ri "Salary" then
        giroBlock ri desc toFromCat.2 depositSet
      else (desc, toFromCat.2)
    let refInfo0 :=
      match refCapture ri with
      | some r => "REF: " ++ trimJs r
      | none => ""
    let refInfo :=
      match transferCapture ri with
      | some n =>
        if refInfo0 ≠ "" then refInfo0 ++ " | TRANSFER: " ++ trimJs n
        else "TRANSFER: " ++ trimJs n
      | none => refInfo0
    let d5 := if toFromCat.1 ≠ "" then descCatG.1 ++ " | " ++ toFromCat.1 else descCatG.1
    let d6 := if refInfo ≠ "" then d5 ++ " | " ++ refInfo else d5
    (d6, descCatG.2)

/-- Fallback categorization from the cleaned description
(lines 1002-1024). -/
def fallbackCategory (desc depositVal withdrawalVal : String) : String :=
  let upperDesc := toUpperStr desc
  if strContains upperDesc "ATM" || strContains upperDesc "WITHDRAWAL"
  then "Cash Withdrawal"
  else if strContains upperDesc "FEE" || strContains upperDesc "CHARGE" ||
     strContains upperDesc "SERVICE CHARGE" then "Fees"
  else if strContains upperDesc "INTEREST" then "Interest"
  else if strContains upperDesc "DIVIDEND" then "Dividend"
  else if strContains upperDesc "TAX" then "Tax"
  else if depositVal ≠ "" then "Income"
  else if withdrawalVal ≠ "" then "Expense"
  else ""

/-- cleanupDescription (dbs-to-excel.ts lines 623-1029). -/
def cleanupDescription (t : DbsTxn) : DbsTxn :=
  let d4 := descNormalize t.Description
  let descCat :=
    if t.RecipientInfo ≠ "" then
      recipientBlock t.RecipientInfo d4 (t.Deposit ≠ "")
    else (d4, "")
  let cat2 :=
    if descCat.2 = "" then fallbackCategory descCat.1 t.Deposit t.Withdrawal
    else descCat.2
  { t with Description := descCat.1, Category := cat2 }

/-! ## DBS statement state machine (processDBSStatementData, lines 185-394) -/

structure DbsState where
  transactions : List DbsTxn
  inSection : Bool
  currentAccount : String
  current : Option DbsTxn
  multiLineDescription : String
  lastBalance : Int
  recipientLines : List String
  isCollectingRecipientInfo : Bool
deriving Repr, DecidableEq

def dbsStartState : DbsState :=
  { transactions := [], inSection := false, currentAccount := "",
    current := none, multiLineDescription := "", lastBalance := 0,
    recipientLines := [], isCollectingRecipientInfo := false }

/-- Finalize the pending transaction: attach the joined recipient
lines, reconcile against the running balance, update the running
balance from the declared balance, and push (lines 252-273 and
289-307).  The date-anchor call site does not reset the auxiliary
fields, but it overwrites all of them immediately afterwards, so one
resetting definition serves both. -/
def dbsFinalizePending (st : DbsState) : DbsState :=
  match st.current with
  | none => st
  | some t =>
    let t := if st.recipientLines ≠ []
      then { t with RecipientInfo := joinWith " " st.recipientLines }
      else t
    let t := verifyTransactionAmounts t st.lastBalance
    let lb :=
      if t.Balance ≠ "" then (parseMoney t.Balance).getD st.lastBalance
      else st.lastBalance
    { st with transactions := st.transactions ++ [t], current := none,
              multiLineDescription := "", recipientLines := [],
              isCollectingRecipientInfo := false, lastBalance := lb }

/-- One iteration of the line loop of processDBSStatementData
(lines 200-374); `line` is already trimmed and non-empty. -/
def dbsStep (st : DbsState) (line : String) : DbsState :=
  let st :=
    match accountCapture line with
    | some a => { st with currentAccount := a }
    | none => st
  if sectionStartDbs line then { st with inSection := true }
  else if st.inSection = false then st
  else if strContains line "Balance Brought Forward" then
    match sgdCapture line with
    | some s => { st with lastBalance := (parseMoney s).getD st.lastBalance }
    | none => st
  else if strContains line "CURRENCY:" || strContains line "Account Summary" then st
  else if strContains line "Total" || strContains line "End of Statement" then
    dbsFinalizePending { st with inSection := false }
  else
    let amts := amountTokensDbs line
    match dbsDateSplit line with
    | some (date, afterDate) =>
      let st := dbsFinalizePending st
      let remainingText := trimJs afterDate
      let collecting := collectMarker remainingText
      let newTxn : DbsTxn :=
        { Account := st.currentAccount, Date := date,
          Description := remainingText, Withdrawal := "", Deposit := "",
          Balance := "", RecipientInfo := "", Category := "" }
      if amts ≠ [] then
        { st with
          current := some (processAmounts newTxn line amts st.lastBalance),
          multiLineDescription := remainingText,
          recipientLines := (if collecting then [remainingText] else []),
          isCollectingRecipientInfo := false }
      else
        { st with
          current := some newTxn,
          multiLineDescription := remainingText,
          recipientLines := (if collecting then [remainingText] else []),
          isCollectingRecipientInfo := collecting }
    | none =>
      match st.current with
      | none => st
      | some t =>
        if amts ≠ [] then
          { st with current := some (processAmounts t line amts st.lastBalance),
                    isCollectingRecipientInfo := false }
        else
          let mld := st.multiLineDescription ++ " " ++ line
          let t := { t with Description := trimJs (collapseWs mld) }
          let rls :=
            if st.isCollectingRecipientInfo then st.recipientLines ++ [line]
            else if !isBlankJs line then st.recipientLines ++ [line]
            else st.recipientLines
          { st with current := some t, multiLineDescription := mld,
                    recipientLines := rls }

/-- processDBSStatementData (dbs-to-excel.ts lines 185-394). -/
def processDBSStatementData (text : String) : List DbsTxn :=
  let lines := ((jsSplitLit text "\n").filter (fun l => trimJs l ≠ "")).map trimJs
  let st := lines.foldl dbsStep dbsStartState
  let txns :=
    match st.current with
    | some t =>
      let t := if st.recipientLines ≠ []
        then { t with RecipientInfo := joinWith " " st.recipientLines }
        else t
      st.transactions ++ [verifyTransactionAmounts t st.lastBalance]
    | none => st.transactions
  txns.map cleanupDescription

/-! ## DBS alternative parser (processStatementDataAlternative,
lines 1032-1146) and category table (determineCategory, lines 1149-1245) -/

/-- determineCategory; `forWithdrawal` is true for the "withdrawal"
branch and false for the "deposit" branch. -/
def determineCategory (description : String) (forWithdrawal : Bool) : String :=
  let upperDesc := toUpperStr description
  if forWithdrawal then
    if strContains upperDesc "RESTAURANT" || strContains upperDesc "CAFE" ||
       strContains upperDesc "FOOD" || strContains upperDesc "BAKERY" ||
       strContains upperDesc "COFFEE" then "Dining"
    else if strContains upperDesc "MARKET" || strContains upperDesc "SUPERMARKET" ||
       strContains upperDesc "GROCERY" || strContains upperDesc "NTUC" ||
       strContains upperDesc "FAIRPRICE" || strContains upperDesc "COLD STORAGE"
    then "Groceries"
    else if strContains upperDesc "TRANSPORT" || strContains upperDesc "GRAB" ||
       strContains upperDesc "TAXI" || strContains upperDesc "MRT" ||
       strContains upperDesc "BUS" || strContains upperDesc "GOJEK"
    then "Transport"
    else if strContains upperDesc "AMAZON" || strContains upperDesc "LAZADA" ||
       strContains upperDesc "SHOPEE" || strContains upperDesc "QOOLMART"
    then "Shopping"
    else if strContains upperDesc "BILL" || strContains upperDesc "UTILITY" ||
       strContains upperDesc "POWER" || strContains upperDesc "WATER" ||
       strContains upperDesc "GAS" || strContains upperDesc "ELECTRICITY"
    then "Bills"
    else if strContains upperDesc "INSURANCE" then "Insurance"
    else if strContains upperDesc "RENT" || strContains upperDesc "PROPERTY" ||
       strContains upperDesc "CONDO" || strContains upperDesc "APARTMENT"
    then "Housing"
    else if strContains upperDesc "ATM" || strContains upperDesc "WITHDRAWAL"
    then "Cash Withdrawal"
    else if strContains upperDesc "FEE" || strContains upperDesc "CHARGE" ||
       strContains upperDesc "SERVICE CHARGE" then "Fees"
    else if strContains upperDesc "TRANSFER" then "Transfer"
    else "Expense"
  else
    if strContains upperDesc "SALARY" || strContains upperDesc "PAYROLL" ||
       strContains upperDesc "WAGE" || strContains upperDesc "COMPENSATION"
    then "Salary"
    else if strContains upperDesc "DIVIDEND" || strContains upperDesc "INTEREST" ||
       strContains upperDesc "INVESTMENT" then "Investment Income"
    else if strContains upperDesc "REFUND" then "Refund"
    else if strContains upperDesc "TRANSFER" then "Transfer"
    else "Income"

/-- Records produced by the alternative parser (which uses a different
field set from the main parser, including a plain Amount column). -/
structure AltTxn where
  Date : String
  Description : String
  Category : String
  Withdrawal : String
  Deposit : String
  Balance : String
  Amount : String
deriving Repr, DecidableEq

/-- Remove the first match of the DBS date regex from a line
(`line.replace(datePattern, "")`, non-global). -/
def removeFirstDate (line : String) : String :=
  let cs := line.toList
  match (scanAll (fun i => if dbsDateAt cs i then some (i + 10) else none)
      cs.length).head? with
  | some (i, e) => String.mk (cs.take i ++ cs.drop e)
  | none => line

/-- Process one line of processStatementDataAlternative
(lines 1037-1143); returns the transaction the line yields, if any. -/
def altTxnOfLine (rawLine : String) : Option AltTxn :=
  let line := trimJs rawLine
  if line.length < 10 then none
  else if (dbsDateSplit line).isNone then none
  else
    match dbsDateSplit line with
    | none => none
    | some (date, _) =>
      let amounts := amountTokensDbs line
      if amounts = [] then none
      else
        let desc0 := trimJs (removeFirstDate line)
        let desc1 := amounts.foldl (fun d a => jsReplaceFirst d a "") desc0
        let description := trimJs (collapseWs desc1)
        let upperDesc := toUpperStr description
        match amounts with
        | a0 :: a1 :: a2 :: _ =>
          let cat :=
            if a0 ≠ "" then determineCategory description true
            else if a1 ≠ "" then determineCategory description false
            else ""
          some { Date := date, Description := description, Category := cat,
                 Withdrawal := a0, Deposit := a1, Balance := a2, Amount := "" }
        | [a0, a1] =>
          if strContains upperDesc "PAYMENT" || strContains upperDesc "PURCHASE" ||
             strContains upperDesc "WITHDRAWAL" || strContains upperDesc "DEBIT"
          then
            some { Date := date, Description := description,
                   Category := determineCategory description true,
                   Withdrawal := a0, Deposit := "", Balance := a1, Amount := a0 }
          else if strContains upperDesc "DEPOSIT" || strContains upperDesc "CREDIT" ||
             strContains upperDesc "SALARY" || strContains upperDesc "INCOME"
          then
            some { Date := date, Description := description,
                   Category := determineCategory description false,
                   Withdrawal := "", Deposit := a0, Balance := a1, Amount := a0 }
          else
            some { Date := date, Description := description, Category := "",
                   Withdrawal := "", Deposit := "", Balance := a1, Amount := a0 }
        | [a0] =>
          if strContains upperDesc "PAYMENT" || strContains upperDesc "PURCHASE" ||
             strContains upperDesc "WITHDRAWAL" || strContains upperDesc "DEBIT"
          then
            some { Date := date, Description := description,
                   Category := determineCategory description true,
                   Withdrawal := a0, Deposit := "", Balance := "", Amount := a0 }
          else if strContains upperDesc "DEPOSIT" || strContains upperDesc "CREDIT" ||
             strContains upperDesc "SALARY" || strContains upperDesc "INCOME"
          then
            some { Date := date, Description := description,
                   Category := determineCategory description false,
                   Withdrawal := "", Deposit := a0, Balance := "", Amount := a0 }
          else
            some { Date := date, Description := description, Category := "",
                   Withdrawal := "", Deposit := "", Balance := "", Amount := a0 }
        | [] => none

/-- processStatementDataAlternative (lines 1032-1146). -/
def processStatementDataAlternative (text : String) : List AltTxn :=
  let lines := (jsSplitLit text "\n").filter (fun l => trimJs l ≠ "")
  lines.foldr (fun l acc =>
    match altTxnOfLine l with
    | some t => t :: acc
    | none => acc) []

/-- The data-merging stage of convertPdfToExcel (lines 26-44): run the
primary parser; only when it found nothing, run the alternative parser
and append its results.  (The surrounding PDF/Excel input and output
and the later dummy-note and summary rows are outside the extraction
engine modelled here.) -/
def dbsMergedData (text : String) : List (DbsTxn ⊕ AltTxn) :=
  let primary := processDBSStatementData text
  if primary.length = 0 then
    (processStatementDataAlternative text).map Sum.inr
  else primary.map Sum.inl

/-! ## Citibank direct raw-text extraction
(extractTransactionsFromRawText and categorizeTransaction in the
Citibank converter of src/README.md) -/

structure CitiTxn where
  Date : String
  Description : String
  Debit : String
  Credit : String
  Balance : String
  Category : String
deriving Repr, DecidableEq

/-- categorizeTransaction (Citibank converter). -/
def categorizeTransaction (t : CitiTxn) : CitiTxn :=
  let d := toUpperStr t.Description
  let category :=
    if strContains d "RESTAURANT" || strContains d "CAFE" ||
       strContains d "FOOD" || strContains d "BAKERY" ||
       strContains d "COFFEE" || strContains d "MCDONALD" ||
       strContains d "STARBUCKS" || strContains d "DINING" ||
       strContains d "FOODPANDA" || strContains d "FP*FOOD" then "Dining"
    else if strContains d "MARKET" || strContains d "SUPERMARKET" ||
       strContains d "GROCERY" || strContains d "NTUC" ||
       strContains d "FAIRPRICE" || strContains d "COLD STORAGE"
    then "Groceries"
    else if strContains d "TRANSPORT" || strContains d "GRAB" ||
       strContains d "TAXI" || strContains d "MRT" ||
       strContains d "BUS" || strContains d "GOJEK" || strContains d "UBER"
    then "Transport"
    else if strContains d "AMAZON" || strContains d "LAZADA" ||
       strContains d "SHOPEE" || strContains d "QOOLMART" ||
       strContains d "SHOPPING" || strContains d "RETAIL" ||
       strContains d "SHOPBACK" then "Shopping"
    else if strContains d "BILL" || strContains d "UTILITY" ||
       strContains d "POWER" || strContains d "WATER" ||
       strContains d "GAS" || strContains d "ELECTRICITY" ||
       strContains d "PHONE" || strContains d "MOBILE" ||
       strContains d "INTERNET" then "Bills"
    else if strContains d "INSURANCE" then "Insurance"
    else if strContains d "RENT" || strContains d "PROPERTY" ||
       strContains d "CONDO" || strContains d "APARTMENT" then "Housing"
    else if strContains d "ATM" || strContains d "WITHDRAWAL"
    then "Cash Withdrawal"
    else if strContains d "FEE" || strContains d "CHARGE" ||
       strContains d "SERVICE CHARGE" || strContains d "ANNUAL FEE" ||
       strContains d "MEMBERSHIP FEE" then "Fees"
    else if strContains d "PAYMENT" || strContains d "BILL PAYMENT"
    then "Bill Payment"
    else if strContains d "TRANSFER" then "Transfer"
    else if strContains d "INTEREST" then "Interest"
    else if strContains d "SALARY" || strContains d "PAYROLL" then "Salary"
    else if strContains d "REFUND" || strContains d "REBATE" then "Refund"
    else if strContains d "TRAVEL" || strContains d "AIRLINE" ||
       strContains d "HOTEL" || strContains d "KLOOK" then "Travel"
    else if strContains d "SUBSCRIPTION" || strContains d "NETFLIX" ||
       strContains d "SPOTIFY" || strContains d "PRIME" ||
       strContains d "GOOGLE" || strContains d "APPLE" ||
       strContains d "VPN" then "Subscriptions"
    else if t.Debit ≠ "" then "Expense"
    else if t.Credit ≠ "" then "Income"
    else ""
  { t with Category := category }

/-- The character class of the description group of the transaction
regex: `[A-Za-z0-9\s\*\.\,\-\+\&\(\)\/\$\%\#\@\!\?\:\;\'\"]`. -/
def isTxnDescChar (c : Char) : Bool :=
  c.isAlpha || c.isDigit || isWsJs c ||
  c = '*' || c = '.' || c = ',' || c = '-' || c = '+' || c = '&' ||
  c = '(' || c = ')' || c = '/' || c = '$' || c = '%' || c = '#' ||
  c = '@' || c = '!' || c = '?' || c = ':' || c = ';' ||
  c = '\'' || c = '"'

/-- The character class kept by the description cleanup replace
`[^\w\s\.\,\-\+\&\*\(\)\/\$\%\#\@\!\?\:\;\'\"]` (every other character
becomes a space).  `\w` also admits the underscore. -/
def isCitiKeptChar (c : Char) : Bool :=
  c.isAlpha || c.isDigit || c = '_' || isWsJs c ||
  c = '.' || c = ',' || c = '-' || c = '+' || c = '&' || c = '*' ||
  c = '(' || c = ')' || c = '/' || c = '$' || c = '%' || c = '#' ||
  c = '@' || c = '!' || c = '?' || c = ':' || c = ';' ||
  c = '\'' || c = '"'

/-- `s.replace(/[^\w\s\.\,\-\+\&\*\(\)\/\$\%\#\@\!\?\:\;\'\"]/g, " ")`
followed by whitespace collapapse and trim, as done on every Citi
description. -/
def citiCleanDesc (s : String) : String :=
  trimJs (collapseWs (String.mk
    (s.toList.map (fun c => if isCitiKeptChar c then c else ' '))))

/-- One attempt of `\d+\.\d{2}` at index `i`. -/
def simpleAmountAt (cs : List Char) (i : Nat) : Option Nat :=
  let j := runEnd Char.isDigit cs i
  if j = i then none
  else if charAtIs cs j '.' && isDigitAt cs (j + 1) && isDigitAt cs (j + 2)
  then some (j + 3) else none

/-- One attempt of the transaction regex
`/(\d{2})([A-Z]{3})([...charset...]+?)(\d+\.\d{2})/gi` at index `i`:
two digits, three letters (case-insensitive), a lazy description group
of at least one charset character, then an amount.  Returns
(description start, description end, match end). -/
def citiTxnRegexAt (cs : List Char) (i : Nat) : Option (Nat × Nat × Nat) :=
  if isDigitAt cs i && isDigitAt cs (i + 1) && isAlphaAt cs (i + 2) &&
     isAlphaAt cs (i + 3) && isAlphaAt cs (i + 4) then
    let p := i + 5
    let charsetEnd := runEnd isTxnDescChar cs p
    (List.range' 1 (charsetEnd - p)).findSome? fun k =>
      match simpleAmountAt cs (p + k) with
      | some e => some (p, p + k, e)
      | none => none
  else none

/-- All matches of the transaction regex over the raw text, as
(day, month, raw description, amount) tuples. -/
def citiTxnRegexMatches (text : String) : List (String × String × String × String) :=
  let cs := text.toList
  (scanAll (fun i => (citiTxnRegexAt cs i).map (fun m => m.2.2)) cs.length).map
    (fun m =>
      match citiTxnRegexAt cs m.1 with
      | some (ds, de, e) =>
        (sliceStr cs m.1 (m.1 + 2), sliceStr cs (m.1 + 2) (m.1 + 5),
         sliceStr cs ds de, sliceStr cs de e)
      | none => ("", "", "", ""))

def validMonths : List String :=
  ["JAN", "FEB", "MAR", "APR", "MAY", "JUN",
   "JUL", "AUG", "SEP", "OCT", "NOV", "DEC"]

/-- Header and footer fragments skipped by the direct extraction. -/
def citiSkipDescription (description : String) : Bool :=
  decide (description.length < 3) ||
  strContains description "PAGE" || strContains description "TOTAL" ||
  strContains description "BALANCE" || strContains description "Payment" ||
  strContains description "DueDate" || strContains description "Statement" ||
  strContains description "sfrom" || strContains description "CoReg"

/-- The transaction the main extraction loop builds from one regex
match (with `nowYear` the current year and `nowMonth` the current
zero-based month taken from `new Date()`). -/
def citiMainTxnOfMatch (nowYear nowMonth : Nat)
    (m : String × String × String × String) : Option CitiTxn :=
  let day := m.1
  let month := m.2.1
  let description := trimJs m.2.2.1
  let amount := m.2.2.2
  if citiSkipDescription description then none
  else
    let dayNum := parseNatJs day
    if dayNum < 1 ∨ 31 < dayNum then none
    else if !(validMonths.contains (toUpperStr month)) then none
    else
      let clean0 := citiCleanDesc description
      let cleanDescription :=
        if strContains clean0 "FOREIGN AMOUNT" then
          let parts := jsSplitLit clean0 "FOREIGN AMOUNT"
          trimJs (parts.headD "") ++ " | FOREIGN AMOUNT: " ++
            trimJs ((parts.drop 1).headD "")
        else clean0
      let isCredit :=
        strContains description ("(" ++ amount ++ ")") ||
        strContains description ("( " ++ amount ++ " )")
      let t : CitiTxn :=
        { Date := day ++ " " ++ toUpperStr month,
          Description := cleanDescription,
          Debit := (if isCredit then "" else amount),
          Credit := (if isCredit then amount else ""),
          Balance := "", Category := "" }
      let t := categorizeTransaction t
      let t := { t with Date := t.Date ++ " " ++ toString nowYear }
      let t :=
        if strContains t.Date "DEC" && nowMonth = 0 then
          { t with Date := jsReplaceFirst t.Date (toString nowYear)
                            (toString (nowYear - 1)) }
        else t
      some t

/-- One attempt of the PappaRich regex
`/(\d{2})([A-Z]{3}).*?ShopBackPappaRichN.*?(\d+\.\d{2})/gi` at `i`,
with full backtracking over the two lazy gaps.  Returns
(amount start, match end). -/
def pappaRegexAt (cs : List Char) (i : Nat) : Option (Nat × Nat) :=
  if isDigitAt cs i && isDigitAt cs (i + 1) && isAlphaAt cs (i + 2) &&
     isAlphaAt cs (i + 3) && isAlphaAt cs (i + 4) then
    let p := i + 5
    let lit := "ShopBackPappaRichN".toList.map Char.toLower
    let dotEnd1 := runEnd isDotChar cs p
    (List.range' 0 (dotEnd1 - p + 1)).findSome? fun k =>
      if lstartsWith ((cs.drop (p + k)).map Char.toLower) lit then
        let q := p + k + 18
        let dotEnd2 := runEnd isDotChar cs q
        (List.range' 0 (dotEnd2 - q + 1)).findSome? fun l =>
          match simpleAmountAt cs (q + l) with
          | some e => some (q + l, e)
          | none => none
      else none
  else none

/-- All matches of the PappaRich regex, as (day, month, amount). -/
def pappaRegexMatches (text : String) : List (String × String × String) :=
  let cs := text.toList
  (scanAll (fun i => (pappaRegexAt cs i).map (fun m => m.2)) cs.length).map
    (fun m =>
      match pappaRegexAt cs m.1 with
      | some (astart, e) =>
        (sliceStr cs m.1 (m.1 + 2), sliceStr cs (m.1 + 2) (m.1 + 5),
         sliceStr cs astart e)
      | none => ("", "", ""))

/-- The transaction built from one PappaRich regex match. -/
def pappaTxnOfMatch (nowYear : Nat) (m : String × String × String) :
    Option CitiTxn :=
  let dayNum := parseNatJs m.1
  if dayNum < 1 ∨ 31 < dayNum then none
  else if !(validMonths.contains (toUpperStr m.2.1)) then none
  else
    some { Date := m.1 ++ " " ++ toUpperStr m.2.1 ++ " " ++ toString nowYear,
           Description := "ShopBackPappaRichNorthp Singapore SG",
           Debit := m.2.2, Credit := "", Balance := "", Category := "Dining" }

/-- The hardcoded fallback record added when the marker is present but
no PappaRich transaction was recovered. -/
def pappaFallbackTxn (nowYear : Nat) : CitiTxn :=
  { Date := "10 JAN " ++ toString nowYear,
    Description := "ShopBackPappaRichNorthp Singapore SG",
    Debit := "20.41", Credit := "", Balance := "", Category := "Dining" }

def hasPappaDescription (t : CitiTxn) : Bool :=
  strContains t.Description "ShopBackPappaRichNorthp"

/-- The transaction list of extractTransactionsFromRawText before the
final duplicate removal. -/
def citiPreDedup (nowYear nowMonth : Nat) (text : String) : List CitiTxn :=
  let base := (citiTxnRegexMatches text).filterMap
    (citiMainTxnOfMatch nowYear nowMonth)
  if strContains text "ShopBackPappaRichNorthp" ||
     strContains text "ShopBackPappaRichN" then
    let withPappa := base ++
      (pappaRegexMatches text).filterMap (pappaTxnOfMatch nowYear)
    if withPappa.any hasPappaDescription then withPappa
    else withPappa ++ [pappaFallbackTxn nowYear]
  else base

/-- JavaScript `s.substring(0, 10)`. -/
def take10 (s : String) : String :=
  String.mk (s.toList.take 10)

/-- The duplicate-removal key
`` `${Date}-${Debit || Credit}-${Description.substring(0, 10)}` ``. -/
def citiDedupKey (t : CitiTxn) : String :=
  t.Date ++ "-" ++ (if t.Debit ≠ "" then t.Debit else t.Credit) ++ "-" ++
  take10 t.Description

def citiDedupAux : List CitiTxn → List String → List CitiTxn
  | [], _ => []
  | t :: rest, seen =>
    let k := citiDedupKey t
    if seen.contains k then citiDedupAux rest seen
    else t :: citiDedupAux rest (k :: seen)

/-- extractTransactionsFromRawText (Citibank converter); the current
clock is passed explicitly as (year, zero-based month) because the
source reads it via `new Date()`. -/
def extractTransactionsFromRawText (nowYear nowMonth : Nat) (text : String) :
    List CitiTxn :=
  citiDedupAux (citiPreDedup nowYear nowMonth text) []

/-! ## Helper lemmas -/

theorem finalClear_support (t : DbsTxn) (w d : Bool)
    (h1 : (finalClear t w d).Withdrawal ≠ "")
    (h2 : (finalClear t w d).Deposit ≠ "") : w = d := by
  unfold finalClear at h1 h2
  by_cases hb : t.Withdrawal ≠ "" ∧ t.Deposit ≠ ""
  · rw [if_pos hb] at h1 h2
    cases w <;> cases d <;> simp_all
  · rw [if_neg hb] at h1 h2
    exact absurd ⟨h1, h2⟩ hb

theorem finalClear_false_false (t : DbsTxn) : finalClear t false false = t := by
  unfold finalClear
  by_cases hb : t.Withdrawal ≠ "" ∧ t.Deposit ≠ ""
  · rw [if_pos hb]; simp
  · rw [if_neg hb]

theorem verify_branches (t : DbsTxn) (lb : Int) :
    verifyTransactionAmounts t lb = t ∨
    (verifyTransactionAmounts t lb).Deposit = "" ∨
    (verifyTransactionAmounts t lb).Withdrawal = "" := by
  unfold verifyTransactionAmounts
  repeat' split
  all_goals simp

/-! ## Claim theorems -/

/-- C1.  Evaluation of the Balance Reconciler at the failing input of
the claim: a finalized transaction with Balance 900.00, an unset
(empty) debit and a recorded credit 50.00, reconciled against
lastKnownBalance 1000.00 (delta = -100.00 < 0).  The claim and the
source comment say the debit must be overwritten with 100.00 and the
credit cleared; the code leaves the transaction unchanged, because
parseFloat of the empty debit is NaN and the `difference > 0.01` guard
is then false. -/
theorem c1_unset_debit_not_reconciled :
    verifyTransactionAmounts
      { Account := "", Date := "01/02/2024", Description := "X",
        Withdrawal := "", Deposit := "50.00", Balance := "900.00",
        RecipientInfo := "", Category := "" } 100000 =
      { Account := "", Date := "01/02/2024", Description := "X",
        Withdrawal := "", Deposit := "50.00", Balance := "900.00",
        RecipientInfo := "", Category := "" } := by decide

/-- C2.  One-sided invariant: if processAmounts leaves both the
Withdrawal and the Deposit fields non-empty, then the final withdrawal
and deposit indicators (after conflict rescoring) support both sides
with equal strength; and the Balance Reconciler never produces a
both-set transaction except by leaving an already both-set transaction
untouched. -/
theorem c2_one_sided :
    (∀ (t : DbsTxn) (line : String) (amounts : List String) (lb : Int),
      (processAmounts t line amounts lb).Withdrawal ≠ "" →
      (processAmounts t line amounts lb).Deposit ≠ "" →
      (finalIndicators line t.Description).1 =
        (finalIndicators line t.Description).2) ∧
    (∀ (t : DbsTxn) (lb : Int),
      (verifyTransactionAmounts t lb).Withdrawal ≠ "" →
      (verifyTransactionAmounts t lb).Deposit ≠ "" →
      verifyTransactionAmounts t lb = t) := by
  constructor
  · intro t line amounts lb h1 h2
    simp only [processAmounts] at h1 h2
    exact finalClear_support _ _ _ h1 h2
  · intro t lb h1 h2
    rcases verify_branches t lb with h | h | h
    · exact h
    · exact absurd h h2
    · exact absurd h h1

/-- Witness for C2 at a concrete both-set transaction and a keyword-free
line. -/
theorem c2_one_sided_witness :
    ((finalIndicators "x"
        ({ Account := "", Date := "", Description := "D",
           Withdrawal := "1.00", Deposit := "2.00", Balance := "",
           RecipientInfo := "", Category := "" } : DbsTxn).Description).1 =
      (finalIndicators "x"
        ({ Account := "", Date := "", Description := "D",
           Withdrawal := "1.00", Deposit := "2.00", Balance := "",
           RecipientInfo := "", Category := "" } : DbsTxn).Description).2) ∧
    verifyTransactionAmounts
      { Account := "", Date := "", Description := "D",
        Withdrawal := "1.00", Deposit := "2.00", Balance := "",
        RecipientInfo := "", Category := "" } 0 =
      { Account := "", Date := "", Description := "D",
        Withdrawal := "1.00", Deposit := "2.00", Balance := "",
        RecipientInfo := "", Category := "" } :=
  ⟨c2_one_sided.1 _ "x" [] 0 (by decide) (by decide),
   c2_one_sided.2 _ 0 (by decide) (by decide)⟩

/-- C3 counterexample.  The Citibank direct raw-text extractor reads
the current clock: on the same input text, a run with current year 2024
and a run with current year 2025 produce different outputs (the
fabricated ShopBack record carries the current year in its Date). -/
theorem c3_clock_dependence :
    extractTransactionsFromRawText 2024 5 "ShopBackPappaRichN" ≠
    extractTransactionsFromRawText 2025 5 "ShopBackPappaRichN" := by decide

/-- C3 amended.  Determinism holds once the ambient clock is fixed:
two runs of the extractor at the same current year and month on the
same text produce identical outputs (the DBS parser reads no ambient
state at all, so it is a pure function of the text by construction). -/
theorem c3_same_clock_deterministic :
    ∀ (y y' m m' : Nat) (text : String), y = y' → m = m' →
    extractTransactionsFromRawText y m text =
      extractTransactionsFromRawText y' m' text := by
  intro y y' m m' text hy hm
  rw [hy, hm]

/-- Witness for C3 amended at a concrete clock and text. -/
theorem c3_same_clock_deterministic_witness :
    (2024 : Nat) = 2024 ∧ (0 : Nat) = 0 ∧
    extractTransactionsFromRawText 2024 0 "ShopBackPappaRichN" =
      extractTransactionsFromRawText 2024 0 "ShopBackPappaRichN" :=
  ⟨rfl, rfl, c3_same_clock_deterministic 2024 2024 0 0 _ rfl rfl⟩

/-- C4.  Round-trip scenario A: a statement whose transaction section
holds the single line
"01/02/2024 FAST PAYMENT TO: JOHN DOE 100.00 900.00" with the running
balance initialized to 1000.00 (via the Balance Brought Forward line)
yields exactly one transaction, with Withdrawal 100.00, Balance 900.00
and Category Transfer. -/
theorem c4_roundtrip_scenario_a :
    (processDBSStatementData
      "Transaction Details\nBalance Brought Forward SGD 1,000.00\n01/02/2024 FAST PAYMENT TO: JOHN DOE 100.00 900.00").map
      (fun t => (t.Withdrawal, t.Balance, t.Category)) =
    [("100.00", "900.00", "Transfer")] := by decide

/-- C5 counterexample.  Round-trip scenario B: the line
"02/02/2024 SALARY FROM: ACME CORP 5000.00 5900.00" carries the payroll
keyword SALARY, yet the parser categorizes the transaction as Income,
not Salary: the all-caps SALARY does not match the mixed-case marker
"Salary" that opens recipient-info collection, so the Salary path of
the Categorizer is never reached and the description fallback has no
payroll rule. -/
theorem c5_salary_keyword_gives_income :
    strContains "02/02/2024 SALARY FROM: ACME CORP 5000.00 5900.00" "SALARY"
      = true ∧
    (processDBSStatementData
      "Transaction Details\nBalance Brought Forward SGD 900.00\n02/02/2024 SALARY FROM: ACME CORP 5000.00 5900.00").map
      (fun t => t.Category) = ["Income"] ∧
    ("Income" : String) ≠ "Salary" := by decide

/-- C5 amended.  Scenario B as the code actually behaves: one
transaction with Deposit 5000.00, Balance 5900.00 and Category Income
(Category Salary would require the mixed-case marker "Salary" on the
seed line so that recipient info is collected). -/
theorem c5_roundtrip_scenario_b :
    (processDBSStatementData
      "Transaction Details\nBalance Brought Forward SGD 900.00\n02/02/2024 SALARY FROM: ACME CORP 5000.00 5900.00").map
      (fun t => (t.Deposit, t.Balance, t.Category)) =
    [("5000.00", "5900.00", "Income")] := by decide

/-- Branch description of processAmounts on a two-token line with both
indicators false. -/
theorem processAmounts_neutral_two (t : DbsTxn) (line a0 a1 : String)
    (lb bv : Int) (hw : wIndicator line = false) (hd : dIndicator line = false)
    (hb : parseMoney a1 = some bv) :
    processAmounts t line [a0, a1] lb =
    (if 0 < lb ∧ bv < lb then { t with Withdrawal := a0, Balance := a1 }
     else if 0 < lb ∧ lb < bv then { t with Deposit := a0, Balance := a1 }
     else if descWithdrawSignal t.Description = true then
       { t with Balance := a1, Withdrawal := a0 }
     else { t with Balance := a1, Deposit := a0 }) := by
  have hfi : finalIndicators line t.Description = (false, false) := by
    unfold finalIndicators
    rw [hw, hd]
    simp
  simp only [processAmounts, hfi, hb, Bool.and_eq_true, decide_eq_true_eq]
  split_ifs <;>
    first
    | exact False.elim (by assumption)
    | simp [finalClear_false_false]

/-- C6.  Balance-delta tie-break: on a two-token line where neither the
withdrawal nor the deposit indicator holds, the second token always
becomes the Balance; with an initialized running balance the first
token goes to Withdrawal when the declared balance is below it and to
Deposit when above; with a zero delta or an uninitialized running
balance the first token goes to Deposit exactly when the accumulated
description has no withdrawal keyword (TO:, PAYMENT, Debit Card). -/
theorem c6_balance_delta_tiebreak :
    ∀ (t : DbsTxn) (line a0 a1 : String) (lb bv : Int),
    wIndicator line = false → dIndicator line = false →
    parseMoney a1 = some bv →
    ((processAmounts t line [a0, a1] lb).Balance = a1) ∧
    (0 < lb → bv < lb →
      (processAmounts t line [a0, a1] lb).Withdrawal = a0 ∧
      (processAmounts t line [a0, a1] lb).Deposit = t.Deposit) ∧
    (0 < lb → lb < bv →
      (processAmounts t line [a0, a1] lb).Deposit = a0 ∧
      (processAmounts t line [a0, a1] lb).Withdrawal = t.Withdrawal) ∧
    ((lb ≤ 0 ∨ bv = lb) →
      (if descWithdrawSignal t.Description then
        (processAmounts t line [a0, a1] lb).Withdrawal = a0 ∧
        (processAmounts t line [a0, a1] lb).Deposit = t.Deposit
      else
        (processAmounts t line [a0, a1] lb).Deposit = a0 ∧
        (processAmounts t line [a0, a1] lb).Withdrawal = t.Withdrawal)) := by
  intro t line a0 a1 lb bv hw hd hb
  rw [processAmounts_neutral_two t line a0 a1 lb bv hw hd hb]
  refine ⟨?_, ?_, ?_, ?_⟩
  · split_ifs <;> rfl
  · intro h1 h2
    rw [if_pos ⟨h1, h2⟩]
    exact ⟨rfl, rfl⟩
  · intro h1 h3
    have h2 : ¬ (0 < lb ∧ bv < lb) := by omega
    rw [if_neg h2, if_pos ⟨h1, h3⟩]
    exact ⟨rfl, rfl⟩
  · intro hz
    have h2 : ¬ (0 < lb ∧ bv < lb) := by omega
    have h3 : ¬ (0 < lb ∧ lb < bv) := by omega
    rw [if_neg h2, if_neg h3]
    by_cases hsig : descWithdrawSignal t.Description = true
    · rw [if_pos hsig, if_pos hsig]
      exact ⟨rfl, rfl⟩
    · rw [if_neg hsig, if_neg hsig]
      exact ⟨rfl, rfl⟩

/-- Witness for C6 at a concrete neutral line with a decreasing
balance. -/
theorem c6_balance_delta_tiebreak_witness :
    wIndicator "ABC" = false ∧ dIndicator "ABC" = false ∧
    parseMoney "900.00" = some 90000 ∧
    (((processAmounts
        { Account := "", Date := "", Description := "NEUTRAL",
          Withdrawal := "", Deposit := "", Balance := "",
          RecipientInfo := "", Category := "" } "ABC" ["100.00", "900.00"]
        100000).Balance = "900.00") ∧
      ((0 : Int) < 100000 → (90000 : Int) < 100000 →
        (processAmounts
          { Account := "", Date := "", Description := "NEUTRAL",
            Withdrawal := "", Deposit := "", Balance := "",
            RecipientInfo := "", Category := "" } "ABC" ["100.00", "900.00"]
          100000).Withdrawal = "100.00" ∧
        (processAmounts
          { Account := "", Date := "", Description := "NEUTRAL",
            Withdrawal := "", Deposit := "", Balance := "",
            RecipientInfo := "", Category := "" } "ABC" ["100.00", "900.00"]
          100000).Deposit =
          ({ Account := "", Date := "", Description := "NEUTRAL",
             Withdrawal := "", Deposit := "", Balance := "",
             RecipientInfo := "", Category := "" } : DbsTxn).Deposit) ∧
      ((0 : Int) < 100000 → (100000 : Int) < 90000 →
        (processAmounts
          { Account := "", Date := "", Description := "NEUTRAL",
            Withdrawal := "", Deposit := "", Balance := "",
            RecipientInfo := "", Category := "" } "ABC" ["100.00", "900.00"]
          100000).Deposit = "100.00" ∧
        (processAmounts
          { Account := "", Date := "", Description := "NEUTRAL",
            Withdrawal := "", Deposit := "", Balance := "",
            RecipientInfo := "", Category := "" } "ABC" ["100.00", "900.00"]
          100000).Withdrawal =
          ({ Account := "", Date := "", Description := "NEUTRAL",
             Withdrawal := "", Deposit := "", Balance := "",
             RecipientInfo := "", Category := "" } : DbsTxn).Withdrawal) ∧
      (((100000 : Int) ≤ 0 ∨ (90000 : Int) = 100000) →
        (if descWithdrawSignal
            ({ Account := "", Date := "", Description := "NEUTRAL",
               Withdrawal := "", Deposit := "", Balance := "",
               RecipientInfo := "", Category := "" } : DbsTxn).Description then
          (processAmounts
            { Account := "", Date := "", Description := "NEUTRAL",
              Withdrawal := "", Deposit := "", Balance := "",
              RecipientInfo := "", Category := "" } "ABC" ["100.00", "900.00"]
            100000).Withdrawal = "100.00" ∧
          (processAmounts
            { Account := "", Date := "", Description := "NEUTRAL",
              Withdrawal := "", Deposit := "", Balance := "",
              RecipientInfo := "", Category := "" } "ABC" ["100.00", "900.00"]
            100000).Deposit =
            ({ Account := "", Date := "", Description := "NEUTRAL",
               Withdrawal := "", Deposit := "", Balance := "",
               RecipientInfo := "", Category := "" } : DbsTxn).Deposit
        else
          (processAmounts
            { Account := "", Date := "", Description := "NEUTRAL",
              Withdrawal := "", Deposit := "", Balance := "",
              RecipientInfo := "", Category := "" } "ABC" ["100.00", "900.00"]
            100000).Deposit = "100.00" ∧
          (processAmounts
            { Account := "", Date := "", Description := "NEUTRAL",
              Withdrawal := "", Deposit := "", Balance := "",
              RecipientInfo := "", Category := "" } "ABC" ["100.00", "900.00"]
            100000).Withdrawal =
            ({ Account := "", Date := "", Description := "NEUTRAL",
               Withdrawal := "", Deposit := "", Balance := "",
               RecipientInfo := "", Category := "" } : DbsTxn).Withdrawal))) :=
  ⟨by decide, by decide, by decide,
   c6_balance_delta_tiebreak _ "ABC" "100.00" "900.00" 100000 90000
     (by decide) (by decide) (by decide)⟩

/-- C7 counterexample.  The Categorizer is not idempotent: running
cleanupDescription twice on the scenario-A transaction appends the
" | TO: ..." recipient annotation a second time, because the
RecipientInfo field is never cleared and the second pass re-extracts
and re-concatenates it. -/
theorem c7_not_idempotent :
    cleanupDescription (cleanupDescription
      { Account := "", Date := "01/02/2024",
        Description := "FAST PAYMENT TO: JOHN DOE 100.00 900.00",
        Withdrawal := "100.00", Deposit := "", Balance := "900.00",
        RecipientInfo := "FAST PAYMENT TO: JOHN DOE 100.00 900.00",
        Category := "" }) ≠
    cleanupDescription
      { Account := "", Date := "01/02/2024",
        Description := "FAST PAYMENT TO: JOHN DOE 100.00 900.00",
        Withdrawal := "100.00", Deposit := "", Balance := "900.00",
        RecipientInfo := "FAST PAYMENT TO: JOHN DOE 100.00 900.00",
        Category := "" } := by decide

/-- Shape of cleanupDescription on a transaction without recipient
info. -/
theorem cleanup_no_recipient (s : DbsTxn) (hs : s.RecipientInfo = "") :
    cleanupDescription s =
    { s with Description := descNormalize s.Description,
             Category := fallbackCategory (descNormalize s.Description)
                           s.Deposit s.Withdrawal } := by
  unfold cleanupDescription
  rw [hs]
  simp

/-- C7 amended.  Categorization is idempotent on every transaction
whose RecipientInfo is empty and whose once-cleaned description is a
fixed point of the normalization pass (in particular one free of
amount tokens, sign markers and the Advice marker); it is not
idempotent in general, because a non-empty RecipientInfo that matches
an extraction rule is re-extracted on the second pass and its
annotation concatenated a second time, as the counterexample shows. -/
theorem c7_idempotent_no_recipient :
    ∀ t : DbsTxn, t.RecipientInfo = "" →
    descNormalize ((cleanupDescription t).Description) =
      (cleanupDescription t).Description →
    cleanupDescription (cleanupDescription t) = cleanupDescription t := by
  intro t h hfix
  have h1 := cleanup_no_recipient t h
  have h2 : (cleanupDescription t).RecipientInfo = "" := by
    rw [h1]
    exact h
  have h3 := cleanup_no_recipient _ h2
  rw [h1] at hfix
  simp only at hfix
  rw [h3, h1]
  simp [hfix]

/-- Witness for C7 amended at a concrete clean transaction. -/
theorem c7_idempotent_no_recipient_witness :
    ({ Account := "", Date := "", Description := "HELLO WORLD",
       Withdrawal := "", Deposit := "", Balance := "",
       RecipientInfo := "", Category := "" } : DbsTxn).RecipientInfo = "" ∧
    descNormalize ((cleanupDescription
      { Account := "", Date := "", Description := "HELLO WORLD",
        Withdrawal := "", Deposit := "", Balance := "",
        RecipientInfo := "", Category := "" }).Description) =
      (cleanupDescription
        { Account := "", Date := "", Description := "HELLO WORLD",
          Withdrawal := "", Deposit := "", Balance := "",
          RecipientInfo := "", Category := "" }).Description ∧
    cleanupDescription (cleanupDescription
      { Account := "", Date := "", Description := "HELLO WORLD",
        Withdrawal := "", Deposit := "", Balance := "",
        RecipientInfo := "", Category := "" }) =
      cleanupDescription
        { Account := "", Date := "", Description := "HELLO WORLD",
          Withdrawal := "", Deposit := "", Balance := "",
          RecipientInfo := "", Category := "" } :=
  ⟨rfl, by decide, c7_idempotent_no_recipient _ rfl (by decide)⟩

/-- C8 counterexample.  When the primary DBS parser finds nothing and
the alternative parser is merged in, no duplicate filtering happens:
an input with the same transaction line twice yields a merged sequence
with two identical records (same Date, same withdrawal amount, same
Description). -/
theorem c8_merge_keeps_duplicates :
    dbsMergedData
      "01/02/2024 PAYMENT ALPHA 100.00 900.00\n01/02/2024 PAYMENT ALPHA 100.00 900.00" =
    [Sum.inr { Date := "01/02/2024", Description := "PAYMENT ALPHA",
               Category := "Expense", Withdrawal := "100.00", Deposit := "",
               Balance := "900.00", Amount := "100.00" },
     Sum.inr { Date := "01/02/2024", Description := "PAYMENT ALPHA",
               Category := "Expense", Withdrawal := "100.00", Deposit := "",
               Balance := "900.00", Amount := "100.00" }] := by decide

/-- C8 amended.  The invocation half of the claim holds for the DBS
converter: the alternative extraction contributes nothing whenever the
primary parser returned at least one transaction. -/
theorem c8_fallback_only_when_primary_empty :
    ∀ text : String, processDBSStatementData text ≠ [] →
    dbsMergedData text = (processDBSStatementData text).map Sum.inl := by
  intro text h
  unfold dbsMergedData
  rw [if_neg]
  simpa using h

/-- Witness for C8 amended at the scenario-A document. -/
theorem c8_fallback_only_when_primary_empty_witness :
    processDBSStatementData
      "Transaction Details\nBalance Brought Forward SGD 1,000.00\n01/02/2024 FAST PAYMENT TO: JOHN DOE 100.00 900.00" ≠ [] ∧
    dbsMergedData
      "Transaction Details\nBalance Brought Forward SGD 1,000.00\n01/02/2024 FAST PAYMENT TO: JOHN DOE 100.00 900.00" =
      (processDBSStatementData
        "Transaction Details\nBalance Brought Forward SGD 1,000.00\n01/02/2024 FAST PAYMENT TO: JOHN DOE 100.00 900.00").map
        Sum.inl :=
  ⟨by decide, c8_fallback_only_when_primary_empty _ (by decide)⟩

/-- C9 counterexample.  A continuation line without amounts is stored
into the recipient lines even though the draft never entered
recipient-collection mode: the seed text "SOMETHING PLAIN" matches no
recipient-bearing marker, yet the finalized transaction carries
RecipientInfo "EXTRA LINE". -/
theorem c9_collects_outside_mode :
    collectMarker "SOMETHING PLAIN" = false ∧
    (processDBSStatementData
      "Transaction Details\n01/02/2024 SOMETHING PLAIN\nEXTRA LINE").map
      (fun t => t.RecipientInfo) = ["EXTRA LINE"] := by decide

/-- C9 amended.  Every non-blank continuation line without amount
tokens is appended to recipientLines unconditionally, whether or not
the draft is in recipient-collection mode (the mode only controls
whether the seed line itself is captured, and is turned off once
amounts are assigned). -/
theorem c9_continuation_always_collected :
    ∀ (st : DbsState) (line : String) (t : DbsTxn),
    st.inSection = true → st.current = some t →
    sectionStartDbs line = false →
    strContains line "Balance Brought Forward" = false →
    strContains line "CURRENCY:" = false →
    strContains line "Account Summary" = false →
    strContains line "Total" = false →
    strContains line "End of Statement" = false →
    dbsDateSplit line = none →
    amountTokensDbs line = [] →
    isBlankJs line = false →
    (dbsStep st line).recipientLines = st.recipientLines ++ [line] := by
  intro st line t hin hcur hsec hbbf hcur1 hcur2 htot hend hdate hamts hblank
  unfold dbsStep
  cases hacc : accountCapture line <;>
    simp only [hacc] <;>
    rw [hsec] <;>
    simp only [Bool.false_eq_true, if_false] <;>
    simp only [hin] <;>
    simp only [hbbf, hcur1, hcur2, htot, hend, Bool.or_self, Bool.false_eq_true,
      if_false, if_true] <;>
    simp only [hamts, hdate, hcur] <;>
    rw [hblank] <;>
    cases st.isCollectingRecipientInfo <;>
    simp

/-- Witness for C9 amended at a concrete open-draft state. -/
theorem c9_continuation_always_collected_witness :
    ({ transactions := [], inSection := true, currentAccount := "",
       current := some { Account := "", Date := "01/02/2024",
                         Description := "D", Withdrawal := "", Deposit := "",
                         Balance := "", RecipientInfo := "", Category := "" },
       multiLineDescription := "D", lastBalance := 0, recipientLines := [],
       isCollectingRecipientInfo := false } : DbsState).inSection = true ∧
    (dbsStep
      { transactions := [], inSection := true, currentAccount := "",
        current := some { Account := "", Date := "01/02/2024",
                          Description := "D", Withdrawal := "", Deposit := "",
                          Balance := "", RecipientInfo := "", Category := "" },
        multiLineDescription := "D", lastBalance := 0, recipientLines := [],
        isCollectingRecipientInfo := false } "EXTRA LINE").recipientLines =
      ({ transactions := [], inSection := true, currentAccount := "",
         current := some { Account := "", Date := "01/02/2024",
                           Description := "D", Withdrawal := "", Deposit := "",
                           Balance := "", RecipientInfo := "", Category := "" },
         multiLineDescription := "D", lastBalance := 0, recipientLines := [],
         isCollectingRecipientInfo := false } : DbsState).recipientLines ++
        ["EXTRA LINE"] :=
  ⟨rfl,
   c9_continuation_always_collected _ "EXTRA LINE" _ rfl rfl (by decide)
     (by decide) (by decide) (by decide) (by decide) (by decide) (by decide)
     (by decide) (by decide)⟩

/-- C10 counterexample.  An input containing the marker
"ShopBackPappaRichN" on which the final output holds no transaction
whose description includes "ShopBackPappaRichNorthp": the organic
match and the injected record share the duplicate-removal key
(same date, amount and 10-character description prefix), so the
injected record is dropped. -/
theorem c10_injected_record_dropped :
    strContains "10JANShopBackPappaRichN 20.41" "ShopBackPappaRichN" = true ∧
    extractTransactionsFromRawText 2026 5 "10JANShopBackPappaRichN 20.41" ≠ [] ∧
    (extractTransactionsFromRawText 2026 5 "10JANShopBackPappaRichN 20.41").all
      (fun t => !(strContains t.Description "ShopBackPappaRichNorthp")) = true
    := by decide

/-- C10 amended.  Before duplicate removal the guarantee does hold: for
every input containing either ShopBack marker, the extraction list
contains a transaction whose description includes
"ShopBackPappaRichNorthp" (found by the dedicated regex, or else the
fabricated 10 JAN / 20.41 / Dining record); the final output may then
drop it to deduplication, and the fabricated record is derived from no
amount token of the input. -/
theorem c10_pre_dedup_has_marker :
    ∀ (y m : Nat) (text : String),
    (strContains text "ShopBackPappaRichNorthp" ||
     strContains text "ShopBackPappaRichN") = true →
    ∃ t ∈ citiPreDedup y m text,
      strContains t.Description "ShopBackPappaRichNorthp" = true := by
  intro y m text h
  unfold citiPreDedup
  rw [h]
  simp only [if_true]
  set wp := ((citiTxnRegexMatches text).filterMap (citiMainTxnOfMatch y m)) ++
    (pappaRegexMatches text).filterMap (pappaTxnOfMatch y) with hwp
  by_cases hAny : wp.any hasPappaDescription = true
  · rw [if_pos hAny]
    obtain ⟨u, hu, hp⟩ := List.any_eq_true.mp hAny
    exact ⟨u, hu, hp⟩
  · rw [if_neg hAny]
    refine ⟨pappaFallbackTxn y, ?_, ?_⟩
    · exact List.mem_append_right _ (List.mem_singleton_self _)
    · show strContains "ShopBackPappaRichNorthp Singapore SG"
        "ShopBackPappaRichNorthp" = true
      decide

/-- Witness for C10 amended at a marker-only text. -/
theorem c10_pre_dedup_has_marker_witness :
    (strContains "ShopBackPappaRichN" "ShopBackPappaRichNorthp" ||
     strContains "ShopBackPappaRichN" "ShopBackPappaRichN") = true ∧
    ∃ t ∈ citiPreDedup 2026 5 "ShopBackPappaRichN",
      strContains t.Description "ShopBackPappaRichNorthp" = true :=
  ⟨by decide, c10_pre_dedup_has_marker 2026 5 _ (by decide)⟩
